import Mathlib

/-!
Verification of the health-tools calculator formulas and form handlers
(`app.py`) against their specification.

The numeric domain of the handlers is embedded as `ℚ`. Python's built-in
`round` (round-half-to-even) is modelled by `round0`/`round1` below; the
base-10 logarithm used by the body-fat formula is kept abstract as a
function parameter `L`, with its positivity domain check made explicit
(`log10opt` returns `none` exactly when Python's `math.log10` would raise).
Each form handler (`bmi`, `bmr`, `calorie`, `bodyfat`, `goal_time`,
`sleep`) is embedded as a function from its parsed form fields to
`Option`/`Except`, mirroring the handler's validation chain and error
strings.
-/

namespace HealthTools

/-- Source `clamp`: `max(lo, min(hi, x))`. -/
def clamp (x lo hi : ℚ) : ℚ := max lo (min hi x)

/-- Source `round0`: `int(round(x))`. Python's `round` is
round-half-to-even: ties (fractional part exactly 1/2) go to the even
neighbour. -/
def round0 (x : ℚ) : ℤ :=
  let f := ⌊x⌋
  let r := x - (f : ℚ)
  if r < 1/2 then f
  else if 1/2 < r then f + 1
  else if f % 2 = 0 then f else f + 1

/-- Source `round1`: `round(x, 1)`, i.e. round-half-to-even at one decimal. -/
def round1 (x : ℚ) : ℚ := (round0 (x * 10) : ℚ) / 10

/-- Source `mifflin_st_jeor`: `base = 10W + 6.25H - 5A`, then `+5` for male
and `-161` otherwise. -/
def mifflin_st_jeor (sex : String) (age : ℤ) (height_cm weight_kg : ℚ) : ℚ :=
  let base := 10 * weight_kg + 6.25 * height_cm - 5 * (age : ℚ)
  base + (if sex = "male" then 5 else -161)

/-- Source `bmi_category_cn`: thresholds 18.5 / 24.0 / 28.0, each branch
taken by strict `<`. -/
def bmi_category_cn (bmi : ℚ) : String :=
  if bmi < 18.5 then "偏瘦"
  else if bmi < 24.0 then "正常"
  else if bmi < 28.0 then "偏胖"
  else "肥胖"

/-- Source handler `bmi` (POST branch, computation part): rejects
`h <= 0 or w <= 0` (Python's `not h` truthiness test is subsumed for
parsed numbers), else computes `bmi_raw = w / (hm*hm)` with `hm = h/100`,
displays `round1(bmi_raw)` and categorises the unrounded value. -/
def bmi (height_cm weight_kg : ℚ) : Option (ℚ × String) :=
  if height_cm ≤ 0 ∨ weight_kg ≤ 0 then none
  else
    let hm := height_cm / 100
    let bmi_raw := weight_kg / (hm * hm)
    some (round1 bmi_raw, bmi_category_cn bmi_raw)

/-- Source handler `bmr` (POST branch): validation chain for sex, age,
height, weight, then `round0(mifflin_st_jeor(...))`. -/
def bmr (sex : String) (age : ℤ) (height_cm weight_kg : ℚ) : Except String ℤ :=
  if ¬(sex = "male" ∨ sex = "female") then .error "性别选择不正确。"
  else if age ≤ 0 ∨ 120 < age then .error "请输入正确年龄。"
  else if height_cm ≤ 0 ∨ 250 < height_cm then .error "请输入正确身高（cm）。"
  else if weight_kg ≤ 0 ∨ 300 < weight_kg then .error "请输入正确体重（kg）。"
  else .ok (round0 (mifflin_st_jeor sex age height_cm weight_kg))

/-- Source handler `calorie` (POST branch): BMR validation chain plus the
activity-factor check `act < 1.1 or act > 2.5`, then `round0(b * act)`. -/
def calorie (sex : String) (age : ℤ) (height_cm weight_kg activity : ℚ) :
    Except String ℤ :=
  if ¬(sex = "male" ∨ sex = "female") then .error "性别选择不正确。"
  else if age ≤ 0 ∨ 120 < age then .error "请输入正确年龄。"
  else if height_cm ≤ 0 ∨ 250 < height_cm then .error "请输入正确身高（cm）。"
  else if weight_kg ≤ 0 ∨ 300 < weight_kg then .error "请输入正确体重（kg）。"
  else if activity < 1.1 ∨ 2.5 < activity then .error "活动水平不正确。"
  else .ok (round0 (mifflin_st_jeor sex age height_cm weight_kg * activity))

lemma floor_eq_of_bounds (x : ℚ) (n : ℤ) (h1 : (n : ℚ) ≤ x)
    (h2 : x < (n : ℚ) + 1) : ⌊x⌋ = n :=
  Int.floor_eq_iff.mpr ⟨h1, by linarith⟩

lemma round0_def (x : ℚ) :
    round0 x =
      if x - (⌊x⌋ : ℚ) < 1/2 then ⌊x⌋
      else if 1/2 < x - (⌊x⌋ : ℚ) then ⌊x⌋ + 1
      else if ⌊x⌋ % 2 = 0 then ⌊x⌋ else ⌊x⌋ + 1 := rfl

lemma round0_of_lt_half (x : ℚ) (n : ℤ) (h1 : (n : ℚ) ≤ x)
    (h2 : x < (n : ℚ) + 1/2) : round0 x = n := by
  have hf : ⌊x⌋ = n := floor_eq_of_bounds x n h1 (by linarith)
  rw [round0_def, hf, if_pos (by linarith)]

lemma round0_of_gt_half (x : ℚ) (n : ℤ) (h1 : (n : ℚ) + 1/2 < x)
    (h2 : x < (n : ℚ) + 1) : round0 x = n + 1 := by
  have hf : ⌊x⌋ = n := floor_eq_of_bounds x n (by linarith) h2
  rw [round0_def, hf, if_neg (by linarith), if_pos (by linarith)]

lemma round0_intCast (n : ℤ) : round0 (n : ℚ) = n :=
  round0_of_lt_half _ n le_rfl (by norm_num)

lemma round0_tie_odd (n : ℤ) (h : n % 2 = 1) :
    round0 ((n : ℚ) + 1/2) = n + 1 := by
  have hf : ⌊(n : ℚ) + 1/2⌋ = n :=
    floor_eq_of_bounds _ n (by norm_num) (by norm_num)
  rw [round0_def, hf, if_neg (by norm_num), if_neg (by norm_num),
    if_neg (by omega)]

lemma round0_tie_even (n : ℤ) (h : n % 2 = 0) :
    round0 ((n : ℚ) + 1/2) = n := by
  have hf : ⌊(n : ℚ) + 1/2⌋ = n :=
    floor_eq_of_bounds _ n (by norm_num) (by norm_num)
  rw [round0_def, hf, if_neg (by norm_num), if_neg (by norm_num),
    if_pos (by omega)]

/-- Source `waist_risk`: `whtr = wc/height`, levels by `< 0.5`, `< 0.6`,
else high. -/
def waist_risk (wc_cm height_cm : ℚ) : ℚ × String :=
  let whtr := wc_cm / height_cm
  let level :=
    if whtr < 0.5 then "较好"
    else if whtr < 0.6 then "需要注意"
    else "风险较高"
  (whtr, level)

/-- Source `deficit_plan`: delta/label by mode (anything other than the
three named modes falls to the maintain branch), then
`target = max(1200, int(round(tdee + delta)))`. -/
def deficit_plan (tdee : ℚ) (mode : String) : ℤ × String :=
  let dl : ℤ × String :=
    if mode = "loss_fast" then (-500, "减脂（较快）")
    else if mode = "loss_easy" then (-300, "减脂（温和）")
    else if mode = "gain" then (250, "增重/增肌（温和）")
    else (0, "维持体重")
  (max 1200 (round0 (tdee + (dl.1 : ℚ))), dl.2)

/-- Result record of `ideal_weight_methods` (the source returns a dict with
these five keys). -/
structure IdealWeights where
  devine : ℚ
  robinson : ℚ
  miller : ℚ
  hamwi : ℚ
  average : ℚ

/-- Source `ideal_weight_methods`: inches-over-5ft linear formulas with
sex-specific coefficients, plus their arithmetic mean. -/
def ideal_weight_methods (height_cm : ℚ) (sex : String) : IdealWeights :=
  let h_in := height_cm / 2.54
  let over_5ft := max 0 (h_in - 60)
  if sex = "male" then
    let devine := 50 + 2.3 * over_5ft
    let robinson := 52 + 1.9 * over_5ft
    let miller := 56.2 + 1.41 * over_5ft
    let hamwi := 48 + 2.7 * over_5ft
    { devine := devine, robinson := robinson, miller := miller,
      hamwi := hamwi, average := (devine + robinson + miller + hamwi) / 4 }
  else
    let devine := 45.5 + 2.3 * over_5ft
    let robinson := 49 + 1.7 * over_5ft
    let miller := 53.1 + 1.36 * over_5ft
    let hamwi := 45.5 + 2.2 * over_5ft
    { devine := devine, robinson := robinson, miller := miller,
      hamwi := hamwi, average := (devine + robinson + miller + hamwi) / 4 }

/-- Python float result of `weeks_to_goal`: either `float("inf")` or a
finite value. -/
inductive WeeksResult where
  | inf : WeeksResult
  | fin : ℚ → WeeksResult
deriving DecidableEq

/-- Source `weeks_to_goal`: `diff = abs(target - current)`, returns
`float("inf")` when `rate <= 0`, else `diff / rate`. -/
def weeks_to_goal (current_kg target_kg rate_kg_per_week : ℚ) : WeeksResult :=
  let diff := |target_kg - current_kg|
  if rate_kg_per_week ≤ 0 then .inf
  else .fin (diff / rate_kg_per_week)

/-- Python `round(x, 1)` lifted to float results (`round` maps infinity to
itself). -/
def round1w : WeeksResult → WeeksResult
  | .inf => .inf
  | .fin q => .fin (round1 q)

/-- Source handler `goal_time` (POST branch): range validations
(0 < current ≤ 300, 0 < target ≤ 300, 0 < rate ≤ 2.0), then
`round1(weeks_to_goal(c, t, r))`. -/
def goal_time (current_kg target_kg rate : ℚ) : Except String WeeksResult :=
  if current_kg ≤ 0 ∨ 300 < current_kg then .error "请输入正确当前体重（kg）。"
  else if target_kg ≤ 0 ∨ 300 < target_kg then .error "请输入正确目标体重（kg）。"
  else if rate ≤ 0 ∨ 2 < rate then
    .error "请输入合理的每周变化速度（建议 0.25–1.0 kg/周）。"
  else .ok (round1w (weeks_to_goal current_kg target_kg rate))

/-- Python `math.log10` on `ℚ`, with the log kept abstract as `L`: raises
(returns `.error "math domain error"`) exactly on non-positive arguments. -/
def log10e (L : ℚ → ℚ) (x : ℚ) : Except String ℚ :=
  if 0 < x then .ok (L x) else .error "math domain error"

/-- Source `bodyfat_us_navy`: male branch uses log10(waist−neck) and
log10(height) only; female branch requires hip and uses
log10(waist+hip−neck) and log10(height). Errors model the exceptions the
Python function can raise. -/
def bodyfat_us_navy (L : ℚ → ℚ) (sex : String) (height_cm neck_cm waist_cm : ℚ)
    (hip_cm : Option ℚ) : Except String ℚ :=
  let h := height_cm
  let n := neck_cm
  let w := waist_cm
  if sex = "male" then
    match log10e L (w - n), log10e L h with
    | .error e, _ => .error e
    | .ok _, .error e => .error e
    | .ok a, .ok b => .ok (495 / (1.0324 - 0.19077 * a + 0.15456 * b) - 450)
  else
    match hip_cm with
    | none => .error "female requires hip"
    | some hip =>
      match log10e L (w + hip - n), log10e L h with
      | .error e, _ => .error e
      | .ok _, .error e => .error e
      | .ok a, .ok b => .ok (495 / (1.29579 - 0.35004 * a + 0.22100 * b) - 450)

/-- Hip-field validity test of the `bodyfat` handler: hip missing or
non-positive. -/
def hip_bad : Option ℚ → Bool
  | none => true
  | some hp => decide (hp ≤ 0)

/-- Source handler `bodyfat` (POST branch): validation chain (sex, height,
neck, waist, hip when female, waist > neck) raising before the formula is
called; any exception message becomes the error string; success is
`round1(clamp(bf, 2, 60))`. -/
def bodyfat (L : ℚ → ℚ) (sex : String) (height_cm neck_cm waist_cm : ℚ)
    (hip_cm : Option ℚ) : Except String ℚ :=
  if ¬(sex = "male" ∨ sex = "female") then .error "性别选择不正确。"
  else if height_cm ≤ 0 then .error "请输入正确身高。"
  else if neck_cm ≤ 0 then .error "请输入正确颈围。"
  else if waist_cm ≤ 0 then .error "请输入正确腰围。"
  else if sex = "female" ∧ hip_bad hip_cm then .error "女性请输入正确臀围。"
  else if waist_cm - neck_cm ≤ 0 then .error "腰围需大于颈围（用于公式计算）。"
  else
    match bodyfat_us_navy L sex height_cm neck_cm waist_cm hip_cm with
    | .error e => .error e
    | .ok v => .ok (round1 (clamp v 2 60))

/-- Source nested `add_minutes` of the `sleep` handler: total minutes,
reduced modulo 24·60 (Python `%` on a positive modulus is non-negative,
like `Int.emod`), split back into hours and minutes. -/
def add_minutes (hm : ℤ × ℤ) (minutes : ℤ) : ℤ × ℤ :=
  let total := (hm.1 * 60 + hm.2 + minutes) % (24 * 60)
  (total / 60, total % 60)

/-- Source handler `sleep` (POST branch, after `parse_hm` succeeded):
buffer 15 min, cycle 90 min, cycle counts [3,4,5,6]; `sleep_now` mode adds
the buffer to the bedtime anchor and steps forward, any other mode steps
backward from the wake anchor by cycles plus buffer. -/
def sleep (mode : String) (h m : ℤ) : List (ℤ × ℤ) :=
  let buffer_min : ℤ := 15
  let cycle : ℤ := 90
  let options : List ℤ := [3, 4, 5, 6]
  if mode = "sleep_now" then
    let start := add_minutes (h, m) buffer_min
    options.map fun c => add_minutes start (c * cycle)
  else
    options.map fun c => add_minutes (h, m) (-(c * cycle) - buffer_min)

lemma add_minutes_comp (p : ℤ × ℤ) (a b : ℤ) :
    add_minutes (add_minutes p a) b = add_minutes p (a + b) := by
  obtain ⟨x, y⟩ := p
  simp only [add_minutes, Prod.mk.injEq]
  omega

lemma add_minutes_valid (p : ℤ × ℤ) (a : ℤ) :
    0 ≤ (add_minutes p a).1 ∧ (add_minutes p a).1 ≤ 23
    ∧ 0 ≤ (add_minutes p a).2 ∧ (add_minutes p a).2 ≤ 59 := by
  obtain ⟨x, y⟩ := p
  simp only [add_minutes]
  omega

lemma add_minutes_zero (h m : ℤ) (hh : 0 ≤ h ∧ h ≤ 23)
    (hm : 0 ≤ m ∧ m ≤ 59) : add_minutes (h, m) 0 = (h, m) := by
  simp only [add_minutes, Prod.mk.injEq]
  omega

end HealthTools

namespace HealthTools

/-- C1: for every height_cm > 0 and weight_kg > 0 the BMI handler computes
`bmi = w/(h/100)^2` exactly and assigns the category from that exact value,
with closed-open category intervals: bmi < 18.5 underweight (偏瘦),
18.5 ≤ bmi < 24 normal (正常), 24 ≤ bmi < 28 overweight (偏胖),
bmi ≥ 28 obese (肥胖); in particular 18.5 is normal, 24 overweight and
28 obese. -/
theorem C1_bmi_exact_and_boundaries (h w : ℚ) (hh : 0 < h) (hw : 0 < w) :
    bmi h w = some (round1 (w / (h/100)^2), bmi_category_cn (w / (h/100)^2))
    ∧ (∀ b : ℚ, b < 18.5 → bmi_category_cn b = "偏瘦")
    ∧ (∀ b : ℚ, 18.5 ≤ b → b < 24 → bmi_category_cn b = "正常")
    ∧ (∀ b : ℚ, 24 ≤ b → b < 28 → bmi_category_cn b = "偏胖")
    ∧ (∀ b : ℚ, 28 ≤ b → bmi_category_cn b = "肥胖")
    ∧ bmi_category_cn 18.5 = "正常"
    ∧ bmi_category_cn 24 = "偏胖"
    ∧ bmi_category_cn 28 = "肥胖" := by
  refine ⟨?_, ?_, ?_, ?_, ?_, ?_, ?_, ?_⟩
  · rw [bmi, if_neg (by push_neg; exact ⟨hh, hw⟩), sq]
  · intro b hb
    rw [bmi_category_cn, if_pos hb]
  · intro b hb1 hb2
    rw [bmi_category_cn, if_neg (by linarith), if_pos (by linarith)]
  · intro b hb1 hb2
    rw [bmi_category_cn, if_neg (by linarith), if_neg (by linarith),
      if_pos (by linarith)]
  · intro b hb
    rw [bmi_category_cn, if_neg (by linarith), if_neg (by linarith),
      if_neg (by linarith)]
  · rw [bmi_category_cn, if_neg (by norm_num), if_pos (by norm_num)]
  · rw [bmi_category_cn, if_neg (by norm_num), if_neg (by norm_num),
      if_pos (by norm_num)]
  · rw [bmi_category_cn, if_neg (by norm_num), if_neg (by norm_num),
      if_neg (by norm_num)]

/-- Witness for C1 at height 160 cm, weight 51.2 kg (BMI exactly 20). -/
theorem C1_bmi_witness :
    bmi 160 51.2 = some (round1 (51.2 / ((160:ℚ)/100)^2),
      bmi_category_cn (51.2 / ((160:ℚ)/100)^2)) :=
  (C1_bmi_exact_and_boundaries 160 51.2 (by norm_num) (by norm_num)).1

/-- C2 counterexample: on (male, 30, 170, 60) the Mifflin-St Jeor value is
10·60 + 6.25·170 − 5·30 + 5 = 1517.5, not 1362.5 as the claim computes,
and the BMR handler returns 1518, not 1363. -/
theorem C2_bmr_counterexample :
    mifflin_st_jeor "male" 30 170 60 = 3035/2
    ∧ (3035/2 : ℚ) ≠ 1362.5
    ∧ bmr "male" 30 170 60 = .ok 1518
    ∧ (1518 : ℤ) ≠ 1363 := by
  have hm : mifflin_st_jeor "male" 30 170 60 = 3035/2 := by
    norm_num [mifflin_st_jeor]
  have hr : round0 (3035/2 : ℚ) = 1518 := by
    have h2 : (3035/2 : ℚ) = ((1517 : ℤ) : ℚ) + 1/2 := by norm_num
    rw [h2, round0_tie_odd 1517 (by decide)]
    decide
  refine ⟨hm, by norm_num, ?_, by decide⟩
  rw [bmr, if_neg (by simp), if_neg (by norm_num), if_neg (by norm_num),
    if_neg (by norm_num), hm, hr]

/-- C2 amended: the BMR operation on (male, 30, 170, 60) evaluates the
Mifflin-St Jeor formula to 10·60 + 6.25·170 − 5·30 + 5 = 1517.5 and,
using Python's round-half-to-even (which rounds up here, agreeing with
round-half-up), returns the integer 1518. -/
theorem C2_bmr_amended :
    mifflin_st_jeor "male" 30 170 60 = 10*60 + 6.25*170 - 5*30 + 5
    ∧ (10*60 + 6.25*170 - 5*30 + 5 : ℚ) = 1517.5
    ∧ round0 (1517.5 : ℚ) = 1518
    ∧ bmr "male" 30 170 60 = .ok 1518 := by
  have hm : mifflin_st_jeor "male" 30 170 60 = 3035/2 := by
    norm_num [mifflin_st_jeor]
  have hr : round0 (3035/2 : ℚ) = 1518 := by
    have h2 : (3035/2 : ℚ) = ((1517 : ℤ) : ℚ) + 1/2 := by norm_num
    rw [h2, round0_tie_odd 1517 (by decide)]
    decide
  refine ⟨by rw [hm]; norm_num, by norm_num, ?_, ?_⟩
  · have h3 : (1517.5 : ℚ) = 3035/2 := by norm_num
    rw [h3, hr]
  · rw [bmr, if_neg (by simp), if_neg (by norm_num), if_neg (by norm_num),
      if_neg (by norm_num), hm, hr]

/-- C5: for every validated input the TDEE handler returns
`round0(bmr * factor)` (the unrounded Mifflin-St Jeor value times the
activity factor), and every activity factor outside [1.1, 2.5] is rejected
with a validation error and no result. -/
theorem C5_tdee_round_and_factor_bounds (sex : String) (age : ℤ)
    (h w act : ℚ) (hsex : sex = "male" ∨ sex = "female")
    (hage : 0 < age ∧ age ≤ 120) (hh : 0 < h ∧ h ≤ 250)
    (hw : 0 < w ∧ w ≤ 300) :
    (1.1 ≤ act ∧ act ≤ 2.5 →
      calorie sex age h w act = .ok (round0 (mifflin_st_jeor sex age h w * act)))
    ∧ ((act < 1.1 ∨ 2.5 < act) → ∀ v, calorie sex age h w act ≠ .ok v) := by
  constructor
  · intro hact
    rw [calorie, if_neg (not_not_intro hsex), if_neg (by push_neg; exact hage),
      if_neg (by push_neg; exact hh), if_neg (by push_neg; exact hw),
      if_neg (by push_neg; exact hact)]
  · intro hact v
    rw [calorie, if_neg (not_not_intro hsex), if_neg (by push_neg; exact hage),
      if_neg (by push_neg; exact hh), if_neg (by push_neg; exact hw),
      if_pos hact]
    simp

/-- Witness for C5 at (male, 30, 170, 60, activity 1.2): the handler
returns round0(1517.5 × 1.2) = 1821. -/
theorem C5_tdee_witness :
    calorie "male" 30 170 60 1.2 =
      .ok (round0 (mifflin_st_jeor "male" 30 170 60 * 1.2))
    ∧ round0 (mifflin_st_jeor "male" 30 170 60 * 1.2) = 1821 := by
  constructor
  · exact (C5_tdee_round_and_factor_bounds "male" 30 170 60 1.2 (Or.inl rfl)
      ⟨by norm_num, by norm_num⟩ ⟨by norm_num, by norm_num⟩
      ⟨by norm_num, by norm_num⟩).1 ⟨by norm_num, by norm_num⟩
  · have hm : mifflin_st_jeor "male" 30 170 60 * 1.2 = ((1821 : ℤ) : ℚ) := by
      norm_num [mifflin_st_jeor]
    rw [hm, round0_intCast]

/-- C3 counterexample: the claim quantifies over every current_kg > 0 and
target_kg > 0, but the handler rejects current_kg = 400 (upper bound 300),
and for the validated input (80, 70, 0.3) it returns the one-decimal
rounding 33.3, not |70 − 80|/0.3 = 100/3 exactly. -/
theorem C3_goal_time_counterexample :
    goal_time 400 50 0.5 = .error "请输入正确当前体重（kg）。"
    ∧ goal_time 80 70 0.3 = .ok (.fin (333/10))
    ∧ (333/10 : ℚ) ≠ |(70 : ℚ) - 80| / 0.3 := by
  have habs : |(70 : ℚ) - 80| = 10 := by
    rw [show (70 : ℚ) - 80 = -10 by norm_num, abs_neg,
      abs_of_nonneg (by norm_num)]
  refine ⟨?_, ?_, ?_⟩
  · rw [goal_time, if_pos (by norm_num)]
  · rw [goal_time, if_neg (by norm_num), if_neg (by norm_num),
      if_neg (by norm_num)]
    simp only [weeks_to_goal]
    rw [if_neg (by norm_num)]
    simp only [round1w]
    have hq : |(70 : ℚ) - 80| / 0.3 = 100/3 := by rw [habs]; norm_num
    rw [hq, round1,
      show (100/3 : ℚ) * 10 = 1000/3 by norm_num,
      round0_of_lt_half (1000/3) 333 (by norm_num) (by norm_num)]
    norm_num
  · rw [habs]
    norm_num

/-- C3 amended: the goal-time handler rejects every rate ≤ 0 at validation
(an error, no numeric result) and never returns an infinite value; for
0 < current ≤ 300, 0 < target ≤ 300 and 0 < rate ≤ 2 it returns
|target − current| / rate rounded half-to-even to one decimal (the inner
`weeks_to_goal` value before display rounding is exactly
|target − current| / rate). -/
theorem C3_goal_time_amended (c t r : ℚ) :
    (r ≤ 0 → ∃ e, goal_time c t r = .error e)
    ∧ (∀ x, goal_time c t r = .ok x → x ≠ .inf)
    ∧ (0 < c → c ≤ 300 → 0 < t → t ≤ 300 → 0 < r → r ≤ 2 →
        weeks_to_goal c t r = .fin (|t - c| / r)
        ∧ goal_time c t r = .ok (.fin (round1 (|t - c| / r)))) := by
  refine ⟨?_, ?_, ?_⟩
  · intro hr
    rw [goal_time]
    split_ifs with h1 h2 h3
    · exact ⟨_, rfl⟩
    · exact ⟨_, rfl⟩
    · exact ⟨_, rfl⟩
    · exact absurd (Or.inl hr) h3
  · intro x hx
    rw [goal_time] at hx
    split_ifs at hx with h1 h2 h3
    have hr : ¬ r ≤ 0 := fun hle => h3 (Or.inl hle)
    have hw : weeks_to_goal c t r = .fin (|t - c| / r) := by
      simp only [weeks_to_goal]
      rw [if_neg hr]
    intro hcontra
    rw [hcontra, hw] at hx
    simp only [round1w] at hx
    exact WeeksResult.noConfusion (Except.ok.inj hx)
  · intro hc1 hc2 ht1 ht2 hr1 hr2
    have hw : weeks_to_goal c t r = .fin (|t - c| / r) := by
      simp only [weeks_to_goal]
      rw [if_neg (not_le.mpr hr1)]
    refine ⟨hw, ?_⟩
    rw [goal_time, if_neg (by push_neg; exact ⟨hc1, hc2⟩),
      if_neg (by push_neg; exact ⟨ht1, ht2⟩),
      if_neg (by push_neg; exact ⟨hr1, hr2⟩), hw, round1w]

/-- Witness for C3 (amended): rate −1 is rejected; (80, 70, 0.5) yields
the finite rounded value. -/
theorem C3_goal_time_witness :
    (∃ e, goal_time 80 70 (-1) = .error e)
    ∧ weeks_to_goal 80 70 0.5 = .fin (|(70 : ℚ) - 80| / 0.5)
    ∧ goal_time 80 70 0.5 = .ok (.fin (round1 (|(70 : ℚ) - 80| / 0.5))) :=
  ⟨(C3_goal_time_amended 80 70 (-1)).1 (by norm_num),
   ((C3_goal_time_amended 80 70 0.5).2.2 (by norm_num) (by norm_num)
      (by norm_num) (by norm_num) (by norm_num) (by norm_num)).1,
   ((C3_goal_time_amended 80 70 0.5).2.2 (by norm_num) (by norm_num)
      (by norm_num) (by norm_num) (by norm_num) (by norm_num)).2⟩

/-- C6: for every waist_cm > 0 and height_cm > 0, `waist_risk` returns the
exact ratio waist/height, classifying ratio < 0.5 as the good tier (较好),
0.5 ≤ ratio < 0.6 as the moderate tier (需要注意) and ratio ≥ 0.6 as the
high tier (风险较高); ratio exactly 0.5 is moderate and exactly 0.6 high. -/
theorem C6_whtr_ratio_and_tiers (wc h : ℚ) (hwc : 0 < wc) (hh : 0 < h) :
    (waist_risk wc h).1 = wc / h
    ∧ (wc / h < 0.5 → (waist_risk wc h).2 = "较好")
    ∧ (0.5 ≤ wc / h → wc / h < 0.6 → (waist_risk wc h).2 = "需要注意")
    ∧ (0.6 ≤ wc / h → (waist_risk wc h).2 = "风险较高")
    ∧ (wc / h = 0.5 → (waist_risk wc h).2 = "需要注意")
    ∧ (wc / h = 0.6 → (waist_risk wc h).2 = "风险较高") := by
  have hsnd : (waist_risk wc h).2 =
      if wc / h < 0.5 then "较好"
      else if wc / h < 0.6 then "需要注意" else "风险较高" := rfl
  refine ⟨rfl, ?_, ?_, ?_, ?_, ?_⟩
  · intro hr
    rw [hsnd, if_pos hr]
  · intro hr1 hr2
    rw [hsnd, if_neg (by linarith), if_pos hr2]
  · intro hr
    rw [hsnd, if_neg (by linarith), if_neg (by linarith)]
  · intro hr
    rw [hsnd, if_neg (by rw [hr]; norm_num), if_pos (by rw [hr]; norm_num)]
  · intro hr
    rw [hsnd, if_neg (by rw [hr]; norm_num), if_neg (by rw [hr]; norm_num)]

/-- Witness for C6 at waist 50 cm, height 100 cm: ratio exactly 0.5,
classified moderate (需要注意). -/
theorem C6_whtr_witness :
    (waist_risk 50 100).1 = 50 / 100
    ∧ (waist_risk 50 100).2 = "需要注意" := by
  have hc := C6_whtr_ratio_and_tiers 50 100 (by norm_num) (by norm_num)
  exact ⟨hc.1, hc.2.2.2.2.1 (by norm_num)⟩

/-- C7 counterexample: at tdee = 2000.4 and mode loss_fast the code
returns max(1200, round(1500.4)) = 1500, whereas the claimed value
max(1200, tdee − 500) = 1500.4 is not an integer; the claim as stated
(`target = max(1200, tdee + delta)` exactly) fails. -/
theorem C7_deficit_counterexample :
    (deficit_plan 2000.4 "loss_fast").1 = 1500
    ∧ ((1500 : ℚ) ≠ max 1200 (2000.4 + (-500 : ℚ))) := by
  constructor
  · have hr : round0 ((2000.4 : ℚ) + ((-500 : ℤ) : ℚ)) = 1500 := by
      have he : (2000.4 : ℚ) + ((-500 : ℤ) : ℚ) = 1500.4 := by norm_num
      rw [he]
      exact round0_of_lt_half _ 1500 (by norm_num) (by norm_num)
    show (max 1200 (round0 ((2000.4 : ℚ)
      + (((-500 : ℤ), "减脂（较快）").1 : ℚ))) : ℤ) = 1500
    rw [hr]
    decide
  · have hmax : max (1200 : ℚ) (2000.4 + (-500 : ℚ)) = 1500.4 := by
      rw [max_eq_right (by norm_num)]
      norm_num
    rw [hmax]
    norm_num

/-- C7 amended: for every tdee > 0 and mode among loss_fast / loss_easy /
maintain / gain, `deficit_plan` returns
`target = max(1200, round(tdee + delta))` with delta −500 / −300 / 0 / +250
respectively (round = Python round-half-to-even), so the target is never
below the 1200 kcal/day floor. -/
theorem C7_deficit_amended (tdee : ℚ) (mode : String) (ht : 0 < tdee) :
    1200 ≤ (deficit_plan tdee mode).1
    ∧ (mode = "loss_fast" →
        (deficit_plan tdee mode).1 = max 1200 (round0 (tdee + (-500))))
    ∧ (mode = "loss_easy" →
        (deficit_plan tdee mode).1 = max 1200 (round0 (tdee + (-300))))
    ∧ (mode = "maintain" →
        (deficit_plan tdee mode).1 = max 1200 (round0 (tdee + 0)))
    ∧ (mode = "gain" →
        (deficit_plan tdee mode).1 = max 1200 (round0 (tdee + 250))) := by
  refine ⟨le_max_left _ _, ?_, ?_, ?_, ?_⟩
  · intro hm
    subst hm
    show (max 1200 (round0 ((tdee : ℚ)
      + (((-500 : ℤ), "减脂（较快）").1 : ℚ))) : ℤ) = _
    norm_num
  · intro hm
    subst hm
    show (max 1200 (round0 ((tdee : ℚ)
      + (((-300 : ℤ), "减脂（温和）").1 : ℚ))) : ℤ) = _
    norm_num
  · intro hm
    subst hm
    show (max 1200 (round0 ((tdee : ℚ)
      + (((0 : ℤ), "维持体重").1 : ℚ))) : ℤ) = _
    norm_num
  · intro hm
    subst hm
    show (max 1200 (round0 ((tdee : ℚ)
      + (((250 : ℤ), "增重/增肌（温和）").1 : ℚ))) : ℤ) = _
    norm_num

/-- Witness for C7 (amended) at tdee = 1800, mode maintain: target is
max(1200, 1800) = 1800, at least the 1200 floor. -/
theorem C7_deficit_witness :
    1200 ≤ (deficit_plan 1800 "maintain").1
    ∧ (deficit_plan 1800 "maintain").1 = max 1200 (round0 ((1800 : ℚ) + 0)) := by
  have hc := C7_deficit_amended 1800 "maintain" (by norm_num)
  exact ⟨hc.1, hc.2.2.2.1 rfl⟩

/-- C8: for every height_cm > 0 and either sex, the Average field of
`ideal_weight_methods` equals the arithmetic mean of the Devine, Robinson,
Miller and Hamwi estimates, exactly. -/
theorem C8_ideal_weight_average (h : ℚ) (sex : String) (hh : 0 < h) :
    (ideal_weight_methods h sex).average
      = ((ideal_weight_methods h sex).devine
        + (ideal_weight_methods h sex).robinson
        + (ideal_weight_methods h sex).miller
        + (ideal_weight_methods h sex).hamwi) / 4 := by
  by_cases hs : sex = "male" <;> simp [ideal_weight_methods, hs]

/-- Witness for C8 at height 175 cm, male. -/
theorem C8_ideal_weight_witness :
    (0 : ℚ) < 175
    ∧ (ideal_weight_methods 175 "male").average
      = ((ideal_weight_methods 175 "male").devine
        + (ideal_weight_methods 175 "male").robinson
        + (ideal_weight_methods 175 "male").miller
        + (ideal_weight_methods 175 "male").hamwi) / 4 :=
  ⟨by norm_num, C8_ideal_weight_average 175 "male" (by norm_num)⟩

/-- C4: for every male body-fat request with waist ≤ neck (and otherwise
valid positive measurements), the handler rejects the input with the
explicit precondition error before the formula — hence before log10 — is
evaluated, whatever the log function is; and for waist > neck the formula
evaluates without a domain error and the handler succeeds. -/
theorem C4_bodyfat_precheck (L : ℚ → ℚ) (h n w : ℚ) (hip : Option ℚ) :
    (0 < h → 0 < n → 0 < w → w - n ≤ 0 →
      bodyfat L "male" h n w hip = .error "腰围需大于颈围（用于公式计算）。")
    ∧ (0 < h → 0 < n → n < w →
      ∃ v, bodyfat_us_navy L "male" h n w hip = .ok v
        ∧ bodyfat L "male" h n w hip = .ok (round1 (clamp v 2 60))) := by
  constructor
  · intro hh hn hw hwn
    rw [bodyfat, if_neg (by simp), if_neg (not_le.mpr hh),
      if_neg (not_le.mpr hn), if_neg (not_le.mpr hw), if_neg (by simp),
      if_pos hwn]
  · intro hh hn hnw
    have ha : log10e L (w - n) = .ok (L (w - n)) := by
      rw [log10e, if_pos (by linarith)]
    have hb : log10e L h = .ok (L h) := by
      rw [log10e, if_pos hh]
    have hform : bodyfat_us_navy L "male" h n w hip
        = .ok (495 / (1.0324 - 0.19077 * L (w - n) + 0.15456 * L h) - 450) := by
      show (match log10e L (w - n), log10e L h with
        | .error e, _ => Except.error e
        | .ok _, .error e => Except.error e
        | .ok a, .ok b =>
            Except.ok (495 / (1.0324 - 0.19077 * a + 0.15456 * b) - 450)) = _
      rw [ha, hb]
    refine ⟨_, hform, ?_⟩
    rw [bodyfat, if_neg (by simp), if_neg (not_le.mpr hh),
      if_neg (not_le.mpr hn), if_neg (not_le.mpr (by linarith)),
      if_neg (by simp), if_neg (not_le.mpr (by linarith)), hform]

/-- Witness for C4: (male, height 175, neck 38, waist 35) is rejected by
the waist > neck precondition; (male, height 175, neck 38, waist 85)
evaluates without domain error (log10 instantiated by the zero function). -/
theorem C4_bodyfat_witness :
    bodyfat (fun _ => 0) "male" 175 38 35 none
      = .error "腰围需大于颈围（用于公式计算）。"
    ∧ ∃ v, bodyfat_us_navy (fun _ => 0) "male" 175 38 85 none = .ok v
        ∧ bodyfat (fun _ => 0) "male" 175 38 85 none
          = .ok (round1 (clamp v 2 60)) :=
  ⟨(C4_bodyfat_precheck (fun _ => 0) 175 38 35 none).1 (by norm_num)
      (by norm_num) (by norm_num) (by norm_num),
   (C4_bodyfat_precheck (fun _ => 0) 175 38 85 none).2 (by norm_num)
      (by norm_num) (by norm_num)⟩

/-- C10: for sex = male the body-fat handler's output does not depend on
the hip field: any two requests identical except for hip (absent or
present, any value) produce the same result, for every log function and
all height/neck/waist inputs. -/
theorem C10_bodyfat_male_hip_independent (L : ℚ → ℚ) (h n w : ℚ)
    (hip1 hip2 : Option ℚ) :
    bodyfat L "male" h n w hip1 = bodyfat L "male" h n w hip2 := by
  have e1 : bodyfat_us_navy L "male" h n w hip1
      = bodyfat_us_navy L "male" h n w hip2 := rfl
  rw [bodyfat, bodyfat, e1,
    if_neg (show ¬("male" = "female" ∧ hip_bad hip1 = true) by simp),
    if_neg (show ¬("male" = "female" ∧ hip_bad hip2 = true) by simp)]

/-- C9: for every valid anchor time (0 ≤ h ≤ 23, 0 ≤ m ≤ 59) and either
direction, the sleep handler returns one candidate per N ∈ {3,4,5,6},
each a valid time of day; in `sleep_now` mode (anchor = bedtime) the N-th
candidate is the anchor plus 15 + 90·N minutes modulo 24 h, and in the
other mode (anchor = wake time) each candidate is a bedtime whose
wake time, 15 + 90·N minutes later modulo 24 h, is exactly the anchor. -/
theorem C9_sleep_candidates (mode : String) (h m : ℤ)
    (hh : 0 ≤ h ∧ h ≤ 23) (hm : 0 ≤ m ∧ m ≤ 59) :
    (sleep mode h m).length = 4
    ∧ (∀ t ∈ sleep mode h m, 0 ≤ t.1 ∧ t.1 ≤ 23 ∧ 0 ≤ t.2 ∧ t.2 ≤ 59)
    ∧ (mode = "sleep_now" →
        sleep mode h m = ([3, 4, 5, 6] : List ℤ).map
          (fun c => add_minutes (h, m) (15 + 90 * c)))
    ∧ (mode ≠ "sleep_now" →
        sleep mode h m = ([3, 4, 5, 6] : List ℤ).map
          (fun c => add_minutes (h, m) (-(90 * c) - 15))
        ∧ ∀ c ∈ ([3, 4, 5, 6] : List ℤ),
            add_minutes (add_minutes (h, m) (-(90 * c) - 15)) (15 + 90 * c)
              = (h, m)) := by
  refine ⟨?_, ?_, ?_, ?_⟩
  · by_cases hmode : mode = "sleep_now" <;>
      simp [sleep, hmode]
  · intro t ht
    by_cases hmode : mode = "sleep_now"
    · rw [sleep, if_pos hmode] at ht
      obtain ⟨c, _, rfl⟩ := List.mem_map.mp ht
      exact add_minutes_valid _ _
    · rw [sleep, if_neg hmode] at ht
      obtain ⟨c, _, rfl⟩ := List.mem_map.mp ht
      exact add_minutes_valid _ _
  · intro hmode
    rw [sleep, if_pos hmode]
    refine List.map_congr_left fun c _ => ?_
    rw [add_minutes_comp]
    congr 1
    ring
  · intro hmode
    constructor
    · rw [sleep, if_neg hmode]
      refine List.map_congr_left fun c _ => ?_
      congr 1
      ring
    · intro c _
      rw [add_minutes_comp,
        show -(90 * c) - 15 + (15 + 90 * c) = 0 by ring,
        add_minutes_zero h m hh hm]

/-- Witness for C9 at anchor 23:30, both directions. -/
theorem C9_sleep_witness :
    (sleep "sleep_now" 23 30).length = 4
    ∧ sleep "sleep_now" 23 30 = ([3, 4, 5, 6] : List ℤ).map
        (fun c => add_minutes (23, 30) (15 + 90 * c))
    ∧ sleep "wake_at" 23 30 = ([3, 4, 5, 6] : List ℤ).map
        (fun c => add_minutes (23, 30) (-(90 * c) - 15)) :=
  ⟨(C9_sleep_candidates "sleep_now" 23 30 (by norm_num) (by norm_num)).1,
   (C9_sleep_candidates "sleep_now" 23 30 (by norm_num) (by norm_num)).2.2.1
      rfl,
   ((C9_sleep_candidates "wake_at" 23 30 (by norm_num) (by norm_num)).2.2.2
      (by decide)).1⟩

end HealthTools
